import Mathlib

/-!
Shallow embedding of the SpeskOn coaching backend (`src/server.js` and the
unnamed iteration `src/unnamed/part_000`) together with proofs about its
specified behaviour.

The service keeps two process-wide JS `Map`s (`userSessions` and
`conversationHistory`); these are modelled as association lists with
`Map.get`/`Map.set` semantics (`mapGet` / `mapSet`, insertion order kept,
set-on-existing-key replaces in place).  External collaborators (the Gemini
model gateway and the nodemailer transport) are modelled as input values of
type `Except String _`: `.ok` is a successful call, `.error e` a call that
failed (rejected promise / thrown error carrying message `e`).  Handlers
return an outcome record carrying the HTTP response fields that the source
writes with `res.status(..).json(..)`, the final state of the stores, and a
flag recording whether the model gateway was invoked on that request.
-/

namespace SpeskOn

/-- JS `Map.get`: first (unique) binding of the key, if any. -/
def mapGet {α : Type} : List (String × α) → String → Option α
  | [], _ => none
  | (k', v') :: rest, k => if k' = k then some v' else mapGet rest k

/-- JS `Map.set`: replace the binding in place if the key exists, otherwise
append the new binding at the end (insertion order preserved). -/
def mapSet {α : Type} : List (String × α) → String → α → List (String × α)
  | [], k, v => [(k, v)]
  | (k', v') :: rest, k, v =>
      if k' = k then (k, v) :: rest else (k', v') :: mapSet rest k v

/-- Booking details recorded on a session by `/api/book-meeting`. -/
structure BookingDetails where
  name : String
  email : String
  coachType : String
  timestamp : String
deriving DecidableEq

/-- A user session record (`userSessions` map value, created in `/api/chat`).
`hasBooked`/`bookingDetails` are absent (undefined) until `/api/book-meeting`
sets them; modelled with defaults `false`/`none`. -/
structure Session where
  id : String
  userName : String
  conversationCount : Nat
  mood : String
  interests : List String
  createdAt : String
  lastActivity : String
  hasBooked : Bool := false
  bookingDetails : Option BookingDetails := none
deriving DecidableEq

/-- One conversation-history entry (`{ type, message, timestamp }`). -/
structure Turn where
  type : String
  message : String
  timestamp : String
deriving DecidableEq

/-- The positive word list of `analyzeSentiment` (src/server.js line 46). -/
def positiveWords : List String :=
  ["good", "great", "amazing", "wonderful", "excellent", "love", "like",
   "happy", "excited", "awesome", "fantastic", "perfect", "thanks", "thank you"]

/-- The negative word list of `analyzeSentiment` (src/server.js line 47). -/
def negativeWords : List String :=
  ["bad", "terrible", "awful", "hate", "dislike", "sad", "angry",
   "frustrated", "disappointed", "horrible", "worst", "annoying", "upset"]

/-- JS `String.prototype.split(/\s+/)` on a character list: splits on maximal
whitespace runs; a leading run yields an empty first token and a trailing run
an empty last token (so `"".split` gives `[""]` and `" ".split` gives
`["", ""]`).  `sep` records whether the previous character was whitespace
(i.e. we are inside a separator run). -/
def splitWsGo (sep : Bool) (acc : List Char) : List Char → List (List Char)
  | [] => [acc.reverse]
  | c :: cs =>
      if c.isWhitespace then
        if sep then splitWsGo true acc cs
        else acc.reverse :: splitWsGo true [] cs
      else splitWsGo false (c :: acc) cs

/-- `message.split(/\s+/)`. -/
def splitWs (s : List Char) : List (List Char) := splitWsGo false [] s

/-- `message.toLowerCase().split(/\s+/)` (src/server.js line 49). -/
def tokenize (message : String) : List (List Char) :=
  splitWs (message.data.map Char.toLower)

/-- The `words.forEach` scoring loop of `analyzeSentiment` (lines 52–55):
`+1` per token in the positive list, `-1` per token in the negative list. -/
def sentimentScore (words : List (List Char)) : Int :=
  words.foldl
    (fun score w =>
      let s1 := if positiveWords.contains (String.mk w) then score + 1 else score
      if negativeWords.contains (String.mk w) then s1 - 1 else s1)
    0

/-- `analyzeSentiment` (src/server.js lines 45–60). -/
def analyzeSentiment (message : String) : String :=
  let score := sentimentScore (tokenize message)
  if score > 0 then "positive"
  else if score < 0 then "negative"
  else "neutral"

/-- JS word character (`\w` = `[A-Za-z0-9_]`). -/
def isWordChar (c : Char) : Bool := c.isAlphanum || c = '_'

/-- Does keyword `kw` occur at the head of `s` with a word boundary after it
(`\b` at the end of the regex alternation group)? -/
def wbAt (kw : List Char) (s : List Char) : Bool :=
  kw.isPrefixOf s &&
    (match s.drop kw.length with
     | [] => true
     | c :: _ => !isWordChar c)

/-- Is the character before the current position a word boundary
(start of string or a non-word character)? -/
def boundaryOk : Option Char → Bool
  | none => true
  | some c => !isWordChar c

/-- Search for an occurrence of `kw` surrounded by word boundaries (`\b…\b`),
scanning left to right; `prev` is the character before the current position. -/
def wbSearch (kw : List Char) : Option Char → List Char → Bool
  | prev, [] => boundaryOk prev && wbAt kw []
  | prev, c :: cs => (boundaryOk prev && wbAt kw (c :: cs)) || wbSearch kw (some c) cs

/-- One `\b(alt1|alt2|…)\b` regex test of `detectIntent`: does any of the
alternatives occur in the message with word boundaries? -/
def testPattern (kws : List String) (msg : List Char) : Bool :=
  kws.any fun kw => wbSearch kw.data none msg

/-- Alternatives of the greeting regex (src/server.js line 66). -/
def greetingWords : List String :=
  ["hello", "hi", "hey", "good morning", "good afternoon", "good evening", "greetings"]

/-- Alternatives of the pricing regex (line 69). -/
def pricingWords : List String :=
  ["cost", "price", "fee", "charge", "payment", "money", "expensive", "cheap", "pricing"]

/-- Alternatives of the duration regex (line 72). -/
def durationWords : List String :=
  ["how long", "duration", "time", "weeks", "months", "session length", "program length"]

/-- Alternatives of the booking regex (line 75). -/
def bookingWords : List String :=
  ["book", "schedule", "appointment", "session", "consultation", "meet", "booking"]

/-- Alternatives of the background regex (line 78). -/
def backgroundWords : List String :=
  ["background", "experience", "qualification", "credentials", "about you", "who are you"]

/-- Alternatives of the qualification regex (line 81). -/
def qualificationWords : List String :=
  ["qualify", "qualification", "how do you", "what makes you", "certified"]

/-- `detectIntent` (src/server.js lines 63–86): ordered first-match-wins
cascade of word-boundary regex tests over the lowercased message. -/
def detectIntent (message : String) : String :=
  let lower := message.data.map Char.toLower
  if testPattern greetingWords lower then "greeting"
  else if testPattern pricingWords lower then "pricing"
  else if testPattern durationWords lower then "duration"
  else if testPattern bookingWords lower then "booking"
  else if testPattern backgroundWords lower then "background"
  else if testPattern qualificationWords lower then "qualification"
  else "general"

/-- Case-insensitive literal match: does the (lowercase) pattern `pat` match a
prefix of `s` when each character of `s` is lowercased?  Returns the remainder
of `s` on success. -/
def ciMatchRest : List Char → List Char → Option (List Char)
  | [], rest => some rest
  | _ :: _, [] => none
  | p :: ps, c :: cs => if c.toLower = p then ciMatchRest ps cs else none

/-- `message.match(/my name is (\w+)/i)` (src/server.js line 160): scan for
the first position where the literal `"my name is "` matches
case-insensitively followed by at least one word character; the capture is the
maximal run of word characters (in original case). -/
def findNameMatch : List Char → Option (List Char)
  | [] => none
  | c :: cs =>
      match ciMatchRest ("my name is ".data) (c :: cs) with
      | some rest =>
          let name := rest.takeWhile isWordChar
          if name.isEmpty then findNameMatch cs else some name
      | none => findNameMatch cs

/-- JS `String.prototype.trim()`: strip leading and trailing whitespace
(structurally recursive so that proofs can evaluate it). -/
def jsTrim (s : String) : String :=
  String.mk (((s.data.dropWhile Char.isWhitespace).reverse.dropWhile Char.isWhitespace).reverse)

/-- The user-side history append of `/api/chat` (lines 177–186): push the
turn, then `if (history.length > 30) history.splice(0, history.length - 30)`
— keep only the last 30 entries. -/
def pushUserTurn (hist : List Turn) (t : Turn) : List Turn :=
  let h := hist ++ [t]
  if h.length > 30 then h.drop (h.length - 30) else h

/-- The assistant-side history append of `/api/chat` (lines 219–223): a bare
push, with no cap applied afterwards. -/
def pushAssistantTurn (hist : List Turn) (t : Turn) : List Turn := hist ++ [t]

/-- Substring test (`String.prototype.includes`) on character lists. -/
def containsSub (pat : List Char) : List Char → Bool
  | [] => pat.isEmpty
  | c :: cs => pat.isPrefixOf (c :: cs) || containsSub pat cs

/-- `updateUserInterests` (src/server.js lines 250–269, first iteration):
append interest tags not already present. -/
def updateUserInterests (s : Session) (intent : String) (message : String) : Session :=
  let lower := message.data.map Char.toLower
  let interests := s.interests
  let interests :=
    if intent = "booking" ∧ ¬ interests.contains "booking"
    then interests ++ ["booking"] else interests
  let interests :=
    if intent = "pricing" ∧ ¬ interests.contains "pricing"
    then interests ++ ["pricing"] else interests
  let interests :=
    if containsSub "performance".data lower ∧ ¬ interests.contains "performance"
    then interests ++ ["performance"] else interests
  let interests :=
    if containsSub "leadership".data lower ∧ ¬ interests.contains "leadership"
    then interests ++ ["leadership"] else interests
  { s with interests := interests }

/-- A chat request body after defaulting (`sessionId` is caller-supplied or
the freshly generated random id — either way a concrete string here). -/
structure ChatRequest where
  message : String
  sessionId : String
  userName : Option String
deriving DecidableEq

/-- The JSON body + status written by a handler (fields absent from a given
response are `none`).  `processingTime` is wall-clock time and not modelled. -/
structure ChatResponse where
  status : Nat
  response : Option String := none
  error : Option String := none
  details : Option String := none
  sessionId : Option String := none
  mood : Option String := none
  intent : Option String := none
  responseType : Option String := none
  category : Option String := none
deriving DecidableEq

/-- Result of one `/api/chat` request: the response, the final state of both
stores, and whether `model.generateContent` was invoked. -/
structure ChatOutcome where
  resp : ChatResponse
  sessions : List (String × Session)
  history : List (String × List Turn)
  modelCalled : Bool
deriving DecidableEq

/-- The get-or-create block of `/api/chat` (lines 140–153): reuse the stored
session, or create a fresh record and an empty history log. -/
def getOrCreateSession (sessions : List (String × Session))
    (history : List (String × List Turn)) (sid : String)
    (userName : Option String) (now : String) :
    Session × List (String × Session) × List (String × List Turn) :=
  match mapGet sessions sid with
  | some s => (s, sessions, history)
  | none =>
      let s : Session :=
        { id := sid, userName := userName.getD "Friend", conversationCount := 0,
          mood := "neutral", interests := [], createdAt := now, lastActivity := now }
      (s, mapSet sessions sid s, mapSet history sid [])

/-- The `/api/chat` handler (src/server.js lines 129–247).  `gw` is the model
gateway's outcome for this request (`.error e` covers both a rejected
`generateContent` promise and the `!result || !result.response` malformed
case, which throws with that message); `now` stands for
`new Date().toISOString()`.  In the source the session object and history
array are mutated in place; the embedding writes each mutation back to the
store at the point it happens. -/
def chatHandler (gw : Except String String) (now : String)
    (sessions : List (String × Session)) (history : List (String × List Turn))
    (req : ChatRequest) : ChatOutcome :=
  if req.message = "" ∨ jsTrim req.message = "" then
    { resp := { status := 400, error := some "Message is required" },
      sessions := sessions, history := history, modelCalled := false }
  else
    let r := getOrCreateSession sessions history req.sessionId req.userName now
    let s1 : Session :=
      { r.1 with conversationCount := r.1.conversationCount + 1, lastActivity := now }
    let sessions2 := mapSet r.2.1 req.sessionId s1
    match findNameMatch req.message.data with
    | some nameChars =>
        let s2 := { s1 with userName := String.mk nameChars }
        { resp := { status := 200,
                    response := some ("Hi " ++ String.mk nameChars ++ "! How can I assist you today?"),
                    sessionId := some req.sessionId, mood := some s2.mood },
          sessions := mapSet sessions2 req.sessionId s2,
          history := r.2.2, modelCalled := false }
    | none =>
        let sentiment := analyzeSentiment req.message
        let intent := detectIntent req.message
        let s2 := { s1 with mood := sentiment }
        let sessions3 := mapSet sessions2 req.sessionId s2
        let hist1 := pushUserTurn ((mapGet r.2.2 req.sessionId).getD [])
          { type := "user", message := jsTrim req.message, timestamp := now }
        let history2 := mapSet r.2.2 req.sessionId hist1
        match gw with
        | .error e =>
            { resp := { status := 500, error := some "Failed to generate response",
                        details := some e },
              sessions := sessions3, history := history2, modelCalled := true }
        | .ok text =>
            let responseText := jsTrim text
            let hist2 := pushAssistantTurn hist1
              { type := "assistant", message := responseText, timestamp := now }
            let history3 := mapSet history2 req.sessionId hist2
            let s3 := updateUserInterests s2 intent req.message
            { resp := { status := 200, response := some responseText,
                        sessionId := some req.sessionId, mood := some sentiment,
                        intent := some intent },
              sessions := mapSet sessions3 req.sessionId s3,
              history := history3, modelCalled := true }

/-- A `/api/book-meeting` request body after defaulting. -/
structure BookingRequest where
  name : String
  email : String
  sessionId : String
  message : Option String
  coachType : String
deriving DecidableEq

/-- Result of one `/api/book-meeting` request. -/
structure BookingOutcome where
  status : Nat
  message : Option String := none
  schedulingUrl : Option String := none
  note : Option String := none
  error : Option String := none
  details : Option String := none
  sessions : List (String × Session)
deriving DecidableEq

/-- The `/api/book-meeting` handler of the first iteration in src/server.js
(lines 290–359).  `mail` is the nodemailer outcome for the single
`transporter.sendMail` call; a failure propagates to the outer `catch`, which
answers `500` without the scheduling link.  `token` stands for the random
URL suffix. -/
def bookMeetingAlan (mail : Except String Unit) (now token : String)
    (sessions : List (String × Session)) (req : BookingRequest) : BookingOutcome :=
  if req.name = "" ∨ req.email = "" then
    { status := 400, error := some "Name and email are required", sessions := sessions }
  else
    let url := "https://calendly.com/alan-performance/30min/" ++ token
    let sessions :=
      match mapGet sessions req.sessionId with
      | some s =>
          mapSet sessions req.sessionId
            { s with hasBooked := true,
                     bookingDetails := some
                       { name := req.name, email := req.email,
                         coachType := req.coachType, timestamp := now } }
      | none => sessions
    match mail with
    | .error e =>
        { status := 500, error := some "Failed to send booking request",
          details := some e, sessions := sessions }
    | .ok _ =>
        { status := 200,
          message := some ("Booking request sent successfully. You can also book directly here: " ++ url),
          schedulingUrl := some url, sessions := sessions }

/-- The `/api/book-meeting` handler of `src/unnamed/part_000` (lines
312–417).  The two `transporter.sendMail` calls sit inside an inner
`try`/`catch`: a mail failure degrades to a `200` response that still carries
the scheduling link, with an explanatory `note`. -/
def bookMeetingChris (mail : Except String Unit) (now token : String)
    (sessions : List (String × Session)) (req : BookingRequest) : BookingOutcome :=
  if req.name = "" ∨ req.email = "" then
    { status := 400, error := some "Name and email are required", sessions := sessions }
  else
    let url := "https://calendly.com/chris-lightworks/30min/" ++ token
    let sessions :=
      match mapGet sessions req.sessionId with
      | some s =>
          mapSet sessions req.sessionId
            { s with hasBooked := true,
                     bookingDetails := some
                       { name := req.name, email := req.email,
                         coachType := req.coachType, timestamp := now } }
      | none => sessions
    match mail with
    | .error _ =>
        { status := 200,
          message := some "Meeting booking link generated successfully! Please use the link below to complete your booking.",
          schedulingUrl := some url,
          note := some "Email notification failed, but your booking link is ready.",
          sessions := sessions }
    | .ok _ =>
        { status := 200,
          message := some "Meeting booking initiated successfully! Check your email for the booking link.",
          schedulingUrl := some url, sessions := sessions }

/-- Split a character list on every occurrence of `sep` (like
`String.prototype.split('@')`). -/
def splitOnCharGo (sep : Char) (acc : List Char) : List Char → List (List Char)
  | [] => [acc.reverse]
  | c :: cs =>
      if c = sep then acc.reverse :: splitOnCharGo sep [] cs
      else splitOnCharGo sep (c :: acc) cs

/-- The email-format regex of `/api/contact`
(`/^[^\s@]+@[^\s@]+\.[^\s@]+$/`, src/server.js line 370): exactly one `@`
(both character classes exclude `@`, so the split on `@` has exactly two
parts); a nonempty whitespace-free local part; a whitespace-free domain part
containing a `.` that has at least one character on each side. -/
def emailRegexTest (e : String) : Bool :=
  match splitOnCharGo '@' [] e.data with
  | [localPart, domain] =>
      !localPart.isEmpty && localPart.all (fun c => !c.isWhitespace) &&
      domain.all (fun c => !c.isWhitespace) &&
      decide (3 ≤ domain.length) && ((domain.drop 1).dropLast.contains '.')
  | _ => false

/-- A `/api/contact` request body. -/
structure ContactRequest where
  name : String
  email : String
  message : String
deriving DecidableEq

/-- Result of one `/api/contact` request; `guard` is the duplicate-submission
guard state after the request. -/
structure ContactOutcome where
  status : Nat
  errorMsg : Option String := none
  mailSent : Bool := false
  guard : List (String × Nat)
deriving DecidableEq

/-- Modelled from the spec: the duplicate-submission window of the contact
handler's guard (§4.8, "rejects a repeat submission from the same email
within a trailing window (e.g., 5 minutes)"); the guard itself is missing
from the iterations under src/. Milliseconds. -/
def duplicateWindowMs : Nat := 5 * 60 * 1000

/-- Modelled from the spec: the guard-entry maximum age before the periodic
purge removes it (§4.8, "periodically purges guard entries older than an
hour"). Milliseconds. -/
def purgeAgeMs : Nat := 60 * 60 * 1000

/-- Modelled from the spec: the periodic purge of the duplicate-submission
guard (§4.8 / §9: "a separate periodic or on-access sweep for eviction of
stale entries") — keeps exactly the entries at most an hour old; missing from
the iterations under src/. -/
def purgeGuard (guard : List (String × Nat)) (now : Nat) : List (String × Nat) :=
  guard.filter fun p => now - p.2 ≤ purgeAgeMs

/-- Modelled from the spec: the `/api/contact` handler of the later iteration
with the duplicate-submission guard (§4.8), which is missing from the
iterations under src/.  Required-field and email-format validation mirror the
src handlers (lines 361–373 / part_000 lines 424–431); then a repeat
submission from the same email within the trailing window is rejected with a
`429`-class response, otherwise the guard records the submission time and the
notification mails are dispatched. -/
def contactHandler (guard : List (String × Nat)) (now : Nat)
    (req : ContactRequest) : ContactOutcome :=
  if req.name = "" ∨ req.email = "" ∨ req.message = "" then
    { status := 400, errorMsg := some "Name, email, and message are required", guard := guard }
  else if ¬ emailRegexTest req.email then
    { status := 400, errorMsg := some "Please provide a valid email address", guard := guard }
  else
    match mapGet guard req.email with
    | some last =>
        if now - last < duplicateWindowMs then
          { status := 429, errorMsg := some "Duplicate submission detected. Please wait before submitting again.",
            guard := guard }
        else
          { status := 200, mailSent := true, guard := mapSet guard req.email now }
    | none =>
        { status := 200, mailSent := true, guard := mapSet guard req.email now }

/-- An FAQ table entry (spec §3: category key, trigger keywords, fixed
answer). -/
structure FAQEntry where
  category : String
  keywords : List String
  answer : String
deriving DecidableEq

/-- Case-insensitive substring test used by the FAQ matcher. -/
def ciContains (kw : List Char) (msg : List Char) : Bool :=
  containsSub (kw.map Char.toLower) (msg.map Char.toLower)

/-- Modelled from the spec: the FAQ Matcher (§4.3), which is missing from the
iterations under src/ — iterate the static table in declaration order and
return the first entry any of whose keywords is a case-insensitive substring
of the message (substring, not word-boundary, matching). -/
def findFAQMatch (table : List FAQEntry) (message : String) : Option FAQEntry :=
  table.find? fun entry => entry.keywords.any fun kw => ciContains kw.data message.data

/-- Modelled from the spec: the booking nudge appended to an FAQ answer
(§4.6 step 2); its exact text is unspecified, so it is an abstract constant. -/
def bookingNudge : String := "Would you like to book a session with us?"

/-- Modelled from the spec: the signature line appended to an FAQ answer
(§4.6 step 2); exact text unspecified. -/
def signatureLine : String := "- SpeskOn"

/-- Modelled from the spec: the Conversation Orchestrator with the FAQ
short-circuit (§4.6 steps 1–2), which is missing from the chat handlers under
src/ — after validation, a message matching the FAQ table is answered
immediately with `{answer}\n\n{nudge}\n\n{signature}` plus `responseType` and
`category` fields (§6), leaving both stores untouched and never calling the
model gateway; otherwise the request proceeds as in the src chat handler. -/
def chatHandlerWithFAQ (table : List FAQEntry) (gw : Except String String)
    (now : String) (sessions : List (String × Session))
    (history : List (String × List Turn)) (req : ChatRequest) : ChatOutcome :=
  if req.message = "" ∨ jsTrim req.message = "" then
    { resp := { status := 400, error := some "Message is required" },
      sessions := sessions, history := history, modelCalled := false }
  else
    match findFAQMatch table req.message with
    | some entry =>
        { resp := { status := 200,
                    response := some (entry.answer ++ "\n\n" ++ bookingNudge ++ "\n\n" ++ signatureLine),
                    sessionId := some req.sessionId,
                    responseType := some "faq", category := some entry.category },
          sessions := sessions, history := history, modelCalled := false }
    | none => chatHandler gw now sessions history req

/-! ## Store lemmas -/

theorem mapGet_mapSet_self {α : Type} (m : List (String × α)) (k : String) (v : α) :
    mapGet (mapSet m k v) k = some v := by
  induction m with
  | nil => simp [mapGet, mapSet]
  | cons p rest ih =>
      obtain ⟨k', v'⟩ := p
      by_cases hk : k' = k
      · simp [mapGet, mapSet, hk]
      · simp [mapGet, mapSet, hk, ih]

theorem keys_mapSet_of_get {α : Type} (m : List (String × α)) (k : String) (v w : α)
    (h : mapGet m k = some w) : (mapSet m k v).map Prod.fst = m.map Prod.fst := by
  induction m with
  | nil => simp [mapGet] at h
  | cons p rest ih =>
      obtain ⟨k', v'⟩ := p
      by_cases hk : k' = k
      · simp [mapSet, hk]
      · simp only [mapGet, if_neg hk] at h
        simp [mapSet, hk, ih h]

/-! ## C2: intent detection is a first-match-wins priority cascade -/

/-- C2: `detectIntent` returns the category of the first matching pattern in
the fixed priority order greeting, pricing, duration, booking, background,
qualification, else `general`; each conjunct states that when all
earlier-declared patterns fail and the given one matches, its category is
returned. -/
theorem detectIntent_first_match_wins (m : String) :
    (testPattern greetingWords (m.data.map Char.toLower) = true →
      detectIntent m = "greeting") ∧
    (testPattern greetingWords (m.data.map Char.toLower) = false →
      testPattern pricingWords (m.data.map Char.toLower) = true →
      detectIntent m = "pricing") ∧
    (testPattern greetingWords (m.data.map Char.toLower) = false →
      testPattern pricingWords (m.data.map Char.toLower) = false →
      testPattern durationWords (m.data.map Char.toLower) = true →
      detectIntent m = "duration") ∧
    (testPattern greetingWords (m.data.map Char.toLower) = false →
      testPattern pricingWords (m.data.map Char.toLower) = false →
      testPattern durationWords (m.data.map Char.toLower) = false →
      testPattern bookingWords (m.data.map Char.toLower) = true →
      detectIntent m = "booking") ∧
    (testPattern greetingWords (m.data.map Char.toLower) = false →
      testPattern pricingWords (m.data.map Char.toLower) = false →
      testPattern durationWords (m.data.map Char.toLower) = false →
      testPattern bookingWords (m.data.map Char.toLower) = false →
      testPattern backgroundWords (m.data.map Char.toLower) = true →
      detectIntent m = "background") ∧
    (testPattern greetingWords (m.data.map Char.toLower) = false →
      testPattern pricingWords (m.data.map Char.toLower) = false →
      testPattern durationWords (m.data.map Char.toLower) = false →
      testPattern bookingWords (m.data.map Char.toLower) = false →
      testPattern backgroundWords (m.data.map Char.toLower) = false →
      testPattern qualificationWords (m.data.map Char.toLower) = true →
      detectIntent m = "qualification") ∧
    (testPattern greetingWords (m.data.map Char.toLower) = false →
      testPattern pricingWords (m.data.map Char.toLower) = false →
      testPattern durationWords (m.data.map Char.toLower) = false →
      testPattern bookingWords (m.data.map Char.toLower) = false →
      testPattern backgroundWords (m.data.map Char.toLower) = false →
      testPattern qualificationWords (m.data.map Char.toLower) = false →
      detectIntent m = "general") := by
  refine ⟨?_, ?_, ?_, ?_, ?_, ?_, ?_⟩ <;>
    · intros
      simp only [detectIntent]
      simp [*]

/-- Witness for C2: `"hello what is the price"` matches both the greeting and
the pricing pattern, and resolves to the earlier-declared `greeting`. -/
theorem detectIntent_first_match_wins_witness :
    testPattern greetingWords ("hello what is the price".data.map Char.toLower) = true ∧
    testPattern pricingWords ("hello what is the price".data.map Char.toLower) = true ∧
    detectIntent "hello what is the price" = "greeting" :=
  ⟨by decide, by decide,
    (detectIntent_first_match_wins "hello what is the price").1 (by decide)⟩

/-! ## C3: the 30-entry history cap -/

theorem pushUserTurn_eq_drop (h : List Turn) (t : Turn) :
    pushUserTurn h t = (h ++ [t]).drop ((h ++ [t]).length - 30) := by
  show (if (h ++ [t]).length > 30 then (h ++ [t]).drop ((h ++ [t]).length - 30)
        else h ++ [t]) = _
  split_ifs with hlen
  · rfl
  · have h0 : (h ++ [t]).length - 30 = 0 := by omega
    rw [h0, List.drop_zero]

theorem foldl_pushUserTurn (ts : List Turn) :
    List.foldl pushUserTurn [] ts = ts.drop (ts.length - 30) := by
  induction ts using List.reverseRecOn with
  | nil => rfl
  | append_singleton ts t ih =>
      rw [List.foldl_append, List.foldl_cons, List.foldl_nil, ih, pushUserTurn_eq_drop]
      have hd : (ts.drop (ts.length - 30)).length = ts.length - (ts.length - 30) :=
        List.length_drop _ _
      rcases le_or_lt ts.length 30 with hle | hgt
      · have h0 : ts.length - 30 = 0 := by omega
        simp [h0]
      · have h30 : (ts.drop (ts.length - 30)).length = 30 := by omega
        have h1 : (ts.drop (ts.length - 30) ++ [t]).length - 30 = 1 := by
          simp [h30]
        rw [h1]
        rw [List.drop_append_of_le_length (by omega : 1 ≤ (ts.drop (ts.length - 30)).length)]
        rw [List.drop_drop]
        have h2 : (ts ++ [t]).length - 30 = ts.length - 30 + 1 := by
          simp; omega
        rw [h2]
        rw [List.drop_append_of_le_length (by omega : ts.length - 30 + 1 ≤ ts.length)]

/-- Run `n` successful `/api/chat` requests for session `"s1"` against empty
initial stores (message `"zzz"`, gateway answering `"ok"`). -/
def runChats : Nat → List (String × Session) × List (String × List Turn)
  | 0 => ([], [])
  | n + 1 =>
      let st := runChats n
      let o := chatHandler (.ok "ok") "t" st.1 st.2 ⟨"zzz", "s1", none⟩
      (o.sessions, o.history)

/-- Counterexample to C3: after 16 successful chat turns (32 appends, user
and assistant alike) the stored history log of session `"s1"` has 31 entries,
not 30 — the cap is enforced only after the user-side append, and the
following assistant-side append is uncapped. -/
theorem history_cap_counterexample :
    (mapGet (runChats 16).2 "s1").map List.length = some 31 ∧
    (mapGet (runChats 16).2 "s1").map List.length ≠ some 30 := by
  decide

/-- C3 as amended: the 30-entry sliding-window cap is enforced only on the
user-side append — `pushUserTurn` always keeps exactly the most recent 30
entries of the appended log (in original order), and over any stream of
user-side appends the retained log is the last 30 of the stream — while the
assistant-side append is uncapped and grows the log by one, so the stored log
can reach 31 entries until the next user turn re-applies the cap. -/
theorem history_cap_user_side_only (h : List Turn) (u a : Turn) (ts : List Turn) :
    pushUserTurn h u = (h ++ [u]).drop ((h ++ [u]).length - 30) ∧
    (30 ≤ h.length → (pushUserTurn h u).length = 30) ∧
    (pushAssistantTurn (pushUserTurn h u) a).length = (pushUserTurn h u).length + 1 ∧
    List.foldl pushUserTurn [] ts = ts.drop (ts.length - 30) := by
  refine ⟨pushUserTurn_eq_drop h u, ?_, ?_, foldl_pushUserTurn ts⟩
  · intro h30
    rw [pushUserTurn_eq_drop]
    have : (h ++ [u]).length = h.length + 1 := by simp
    rw [List.length_drop]
    omega
  · simp [pushAssistantTurn]

/-- Witness for C3 (amended): at a log already holding 30 turns, the user
append keeps the length at 30 and the assistant append then pushes it to
31. -/
theorem history_cap_user_side_only_witness :
    30 ≤ (List.replicate 30 (⟨"user", "x", "t"⟩ : Turn)).length ∧
    (pushUserTurn (List.replicate 30 ⟨"user", "x", "t"⟩) ⟨"user", "y", "t"⟩).length = 30 ∧
    (pushAssistantTurn
      (pushUserTurn (List.replicate 30 ⟨"user", "x", "t"⟩) ⟨"user", "y", "t"⟩)
      ⟨"assistant", "z", "t"⟩).length = 31 := by
  refine ⟨by decide, ?_, ?_⟩
  · exact (history_cap_user_side_only (List.replicate 30 ⟨"user", "x", "t"⟩)
      ⟨"user", "y", "t"⟩ ⟨"assistant", "z", "t"⟩ []).2.1 (by decide)
  · have h := (history_cap_user_side_only (List.replicate 30 ⟨"user", "x", "t"⟩)
      ⟨"user", "y", "t"⟩ ⟨"assistant", "z", "t"⟩ []).2.2.1
    rw [h]
    have h' := (history_cap_user_side_only (List.replicate 30 ⟨"user", "x", "t"⟩)
      ⟨"user", "y", "t"⟩ ⟨"assistant", "z", "t"⟩ []).2.1 (by decide)
    rw [h']

/-! ## C4 / C10: sentiment analysis -/

theorem sentimentScore_eq_counts (ws : List (List Char)) (init : Int) :
    ws.foldl
      (fun score w =>
        let s1 := if positiveWords.contains (String.mk w) then score + 1 else score
        if negativeWords.contains (String.mk w) then s1 - 1 else s1)
      init
      = init + ((ws.countP fun w => positiveWords.contains (String.mk w) : Nat) : Int)
          - ((ws.countP fun w => negativeWords.contains (String.mk w) : Nat) : Int) := by
  induction ws generalizing init with
  | nil => simp
  | cons w ws ih =>
      simp only [List.foldl_cons, List.countP_cons, ih]
      by_cases hp : String.mk w ∈ positiveWords <;>
        by_cases hn : String.mk w ∈ negativeWords <;>
          simp [hp, hn] <;> ring

theorem toLower_isWhitespace (c : Char) (h : c.isWhitespace = true) :
    (Char.toLower c).isWhitespace = true := by
  simp only [Char.isWhitespace, Bool.or_eq_true, decide_eq_true_eq] at h
  rcases h with ((h | h) | h) | h <;> subst h <;> decide

theorem splitWsGo_all_ws (l : List Char) : ∀ (sep : Bool) (acc : List Char),
    (∀ c ∈ l, c.isWhitespace = true) →
    ∀ t ∈ splitWsGo sep acc l, t = acc.reverse ∨ t = [] := by
  induction l with
  | nil =>
      intro sep acc _ t ht
      simp only [splitWsGo, List.mem_singleton] at ht
      exact .inl ht
  | cons c cs ih =>
      intro sep acc hws t ht
      have hc : c.isWhitespace = true := hws c (by simp)
      have hcs : ∀ x ∈ cs, x.isWhitespace = true := fun x hx => hws x (by simp [hx])
      simp only [splitWsGo, hc, if_true] at ht
      cases sep with
      | true => exact ih true acc hcs t (by simpa using ht)
      | false =>
          simp only [if_neg Bool.false_ne_true, List.mem_cons] at ht
          rcases ht with h | h
          · exact .inl h
          · rcases ih true [] hcs t h with h' | h'
            · right; simpa using h'
            · exact .inr h'

theorem splitWsGo_no_ws (l : List Char) : ∀ (sep : Bool) (acc : List Char),
    (∀ c ∈ acc, c.isWhitespace = false) →
    ∀ t ∈ splitWsGo sep acc l, ∀ c ∈ t, c.isWhitespace = false := by
  induction l with
  | nil =>
      intro sep acc hacc t ht c hc
      simp only [splitWsGo, List.mem_singleton] at ht
      subst ht
      exact hacc c (List.mem_reverse.mp hc)
  | cons d cs ih =>
      intro sep acc hacc t ht c hc
      cases hd : d.isWhitespace with
      | true =>
          simp only [splitWsGo, hd, if_true] at ht
          cases sep with
          | true => exact ih true acc hacc t (by simpa using ht) c hc
          | false =>
              simp only [if_neg Bool.false_ne_true, List.mem_cons] at ht
              rcases ht with h | h
              · subst h
                exact hacc c (List.mem_reverse.mp hc)
              · exact ih true [] (by simp) t h c hc
      | false =>
          simp only [splitWsGo, hd, Bool.false_eq_true, if_false] at ht
          refine ih false (d :: acc) ?_ t ht c hc
          intro x hx
          rcases List.mem_cons.mp hx with h | h
          · subst h; exact hd
          · exact hacc x h

/-- C4: `analyzeSentiment` lowercases the message, splits it on whitespace,
scores `+1` per token in the positive list and `-1` per token in the negative
list (the fold equals the difference of the two token counts), and returns
`positive` iff the score is strictly positive, `negative` iff strictly
negative, `neutral` otherwise; whitespace-only (or empty) input scores 0 and
yields `neutral`. -/
theorem analyzeSentiment_correct (m : String) :
    sentimentScore (tokenize m)
      = (((tokenize m).countP fun w => positiveWords.contains (String.mk w) : Nat) : Int)
        - (((tokenize m).countP fun w => negativeWords.contains (String.mk w) : Nat) : Int) ∧
    (analyzeSentiment m = "positive" ↔ 0 < sentimentScore (tokenize m)) ∧
    (analyzeSentiment m = "negative" ↔ sentimentScore (tokenize m) < 0) ∧
    (analyzeSentiment m = "neutral" ↔ sentimentScore (tokenize m) = 0) ∧
    ((∀ c ∈ m.data, c.isWhitespace = true) → analyzeSentiment m = "neutral") := by
  have hscore : sentimentScore (tokenize m)
      = (((tokenize m).countP fun w => positiveWords.contains (String.mk w) : Nat) : Int)
        - (((tokenize m).countP fun w => negativeWords.contains (String.mk w) : Nat) : Int) := by
    simpa [sentimentScore] using sentimentScore_eq_counts (tokenize m) 0
  have hifs : analyzeSentiment m =
      (if 0 < sentimentScore (tokenize m) then "positive"
       else if sentimentScore (tokenize m) < 0 then "negative" else "neutral") := rfl
  refine ⟨hscore, ?_, ?_, ?_, ?_⟩
  · rw [hifs]; split_ifs with h1 h2
    · exact ⟨fun _ => h1, fun _ => rfl⟩
    · exact ⟨fun hx => absurd hx (by decide), fun hx => absurd hx h1⟩
    · exact ⟨fun hx => absurd hx (by decide), fun hx => absurd hx h1⟩
  · rw [hifs]; split_ifs with h1 h2
    · exact ⟨fun hx => absurd hx (by decide), fun hx => absurd hx (by omega)⟩
    · exact ⟨fun _ => h2, fun _ => rfl⟩
    · exact ⟨fun hx => absurd hx (by decide), fun hx => absurd hx h2⟩
  · rw [hifs]; split_ifs with h1 h2
    · exact ⟨fun hx => absurd hx (by decide), fun hx => absurd h1 (by omega)⟩
    · exact ⟨fun hx => absurd hx (by decide), fun hx => absurd h2 (by omega)⟩
    · exact ⟨fun _ => by omega, fun _ => rfl⟩
  · intro hws
    have hlow : ∀ c ∈ m.data.map Char.toLower, c.isWhitespace = true := by
      intro c hc
      rcases List.mem_map.mp hc with ⟨d, hd, rfl⟩
      exact toLower_isWhitespace d (hws d hd)
    have htok : ∀ t ∈ tokenize m, t = [] := by
      intro t ht
      have ht' : t ∈ splitWsGo false [] (m.data.map Char.toLower) := ht
      rcases splitWsGo_all_ws (m.data.map Char.toLower) false [] hlow t ht' with h | h
      · simpa using h
      · exact h
    have hz : sentimentScore (tokenize m) = 0 := by
      have hcp : ((tokenize m).countP fun w => positiveWords.contains (String.mk w)) = 0 := by
        rw [List.countP_eq_zero]
        intro t ht
        rw [htok t ht]
        decide
      have hcn : ((tokenize m).countP fun w => negativeWords.contains (String.mk w)) = 0 := by
        rw [List.countP_eq_zero]
        intro t ht
        rw [htok t ht]
        decide
      rw [hscore, hcp, hcn]
      simp
    rw [hifs, if_neg (by omega), if_neg (by omega)]

/-- Witness for C4: the whitespace-only message `"   "` is classified
`neutral`, and on `"good good bad"` the score is the count difference
`2 - 1 = 1`, classified `positive`. -/
theorem analyzeSentiment_correct_witness :
    (∀ c ∈ ("   " : String).data, c.isWhitespace = true) ∧
    analyzeSentiment "   " = "neutral" ∧
    sentimentScore (tokenize "good good bad") = 1 ∧
    analyzeSentiment "good good bad" = "positive" := by
  refine ⟨by decide, ?_, by decide, ?_⟩
  · exact (analyzeSentiment_correct "   ").2.2.2.2 (by decide)
  · exact (analyzeSentiment_correct "good good bad").2.1.mpr (by decide)

/-- C10: the positive-word list contains the two-word entry `"thank you"`,
but tokens produced by the whitespace split never contain whitespace, so that
entry can never equal a token (its count among the tokens of any message is
0); consequently `"thank you"` is classified `neutral` while `"thanks"` is
classified `positive`. -/
theorem thankYou_entry_unreachable :
    "thank you" ∈ positiveWords ∧
    (∀ m : String, (tokenize m).count "thank you".data = 0) ∧
    analyzeSentiment "thank you" = "neutral" ∧
    analyzeSentiment "thanks" = "positive" := by
  refine ⟨by decide, ?_, by decide, by decide⟩
  intro m
  rw [List.count_eq_zero]
  intro hmem
  have hmem' : "thank you".data ∈ splitWsGo false [] (m.data.map Char.toLower) := hmem
  have hno := splitWsGo_no_ws (m.data.map Char.toLower) false [] (by simp)
    ("thank you".data) hmem' ' ' (by decide)
  exact absurd hno (by decide)

/-! ## C9: get-or-create is idempotent on an existing session identifier -/

/-- C9: a chat request bearing a session identifier already present in the
store reuses the existing record — the resulting store still maps that
identifier to a session with the original creation timestamp (and id), and
the store's key set is unchanged (no new record is created). -/
theorem session_getOrCreate_idempotent (gw : Except String String) (now : String)
    (sessions : List (String × Session)) (history : List (String × List Turn))
    (req : ChatRequest) (s : Session)
    (hs : mapGet sessions req.sessionId = some s) :
    ∃ s', mapGet (chatHandler gw now sessions history req).sessions req.sessionId = some s' ∧
      s'.createdAt = s.createdAt ∧ s'.id = s.id ∧
      (chatHandler gw now sessions history req).sessions.map Prod.fst
        = sessions.map Prod.fst := by
  unfold chatHandler
  by_cases hb : req.message = "" ∨ jsTrim req.message = ""
  · rw [if_pos hb]
    exact ⟨s, hs, rfl, rfl, rfl⟩
  · rw [if_neg hb]
    have hr : getOrCreateSession sessions history req.sessionId req.userName now
        = (s, sessions, history) := by
      unfold getOrCreateSession
      rw [hs]
    rw [hr]
    cases hnm : findNameMatch req.message.data with
    | some nameChars =>
        refine ⟨_, mapGet_mapSet_self _ _ _, rfl, rfl, ?_⟩
        rw [keys_mapSet_of_get _ _ _ _ (mapGet_mapSet_self _ _ _),
          keys_mapSet_of_get _ _ _ _ hs]
    | none =>
        cases gw with
        | error e =>
            refine ⟨_, mapGet_mapSet_self _ _ _, rfl, rfl, ?_⟩
            rw [keys_mapSet_of_get _ _ _ _ (mapGet_mapSet_self _ _ _),
              keys_mapSet_of_get _ _ _ _ hs]
        | ok text =>
            refine ⟨_, mapGet_mapSet_self _ _ _, ?_, ?_, ?_⟩
            · simp [updateUserInterests]
            · simp [updateUserInterests]
            · rw [keys_mapSet_of_get _ _ _ _ (mapGet_mapSet_self _ _ _),
                keys_mapSet_of_get _ _ _ _ (mapGet_mapSet_self _ _ _),
                keys_mapSet_of_get _ _ _ _ hs]

/-- A concrete stored session used to instantiate store-level theorems. -/
def sampleSession : Session :=
  { id := "s1", userName := "Friend", conversationCount := 1, mood := "neutral",
    interests := [], createdAt := "T0", lastActivity := "T0" }

/-- Witness for C9: a second request on the stored identifier `"s1"` keeps
the record's creation timestamp `"T0"` and adds no key. -/
theorem session_getOrCreate_idempotent_witness :
    mapGet [("s1", sampleSession)] "s1" = some sampleSession ∧
    ∃ s', mapGet (chatHandler (.ok "yo") "T1" [("s1", sampleSession)]
        [("s1", [])] ⟨"hi there", "s1", none⟩).sessions "s1" = some s' ∧
      s'.createdAt = sampleSession.createdAt ∧ s'.id = sampleSession.id ∧
      (chatHandler (.ok "yo") "T1" [("s1", sampleSession)]
        [("s1", [])] ⟨"hi there", "s1", none⟩).sessions.map Prod.fst
        = [("s1", sampleSession)].map Prod.fst :=
  ⟨rfl, session_getOrCreate_idempotent (.ok "yo") "T1" _ _ _ _ rfl⟩

/-! ## C7: name-extraction shortcut -/

/-- C7: when the message matches `/my name is (\w+)/i`, the handler stores
the captured word as the session's display name and answers immediately with
a `200` greeting referencing it, never reaching the sentiment / intent /
history-append / model-gateway steps: the gateway is not called and the
session's history log is left untouched (or merely created empty for a fresh
session). -/
theorem name_extraction_shortcut (gw : Except String String) (now : String)
    (sessions : List (String × Session)) (history : List (String × List Turn))
    (req : ChatRequest) (nameChars : List Char)
    (h1 : req.message ≠ "") (h2 : jsTrim req.message ≠ "")
    (hnm : findNameMatch req.message.data = some nameChars) :
    (chatHandler gw now sessions history req).resp.status = 200 ∧
    (chatHandler gw now sessions history req).resp.response
      = some ("Hi " ++ String.mk nameChars ++ "! How can I assist you today?") ∧
    (∃ s', mapGet (chatHandler gw now sessions history req).sessions req.sessionId
        = some s' ∧ s'.userName = String.mk nameChars) ∧
    (chatHandler gw now sessions history req).modelCalled = false ∧
    (mapGet (chatHandler gw now sessions history req).history req.sessionId
        = mapGet history req.sessionId ∨
      mapGet (chatHandler gw now sessions history req).history req.sessionId
        = some []) := by
  unfold chatHandler
  rw [if_neg (by push_neg; exact ⟨h1, h2⟩)]
  cases hg : mapGet sessions req.sessionId with
  | some s =>
      have hr : getOrCreateSession sessions history req.sessionId req.userName now
          = (s, sessions, history) := by
        unfold getOrCreateSession
        rw [hg]
      rw [hr, hnm]
      exact ⟨rfl, rfl, ⟨_, mapGet_mapSet_self _ _ _, rfl⟩, rfl, .inl rfl⟩
  | none =>
      have hr : getOrCreateSession sessions history req.sessionId req.userName now
          = (let s : Session :=
              { id := req.sessionId, userName := req.userName.getD "Friend",
                conversationCount := 0, mood := "neutral", interests := [],
                createdAt := now, lastActivity := now };
             (s, mapSet sessions req.sessionId s, mapSet history req.sessionId [])) := by
        unfold getOrCreateSession
        rw [hg]
      rw [hr, hnm]
      exact ⟨rfl, rfl, ⟨_, mapGet_mapSet_self _ _ _, rfl⟩, rfl,
        .inr (mapGet_mapSet_self _ _ _)⟩

/-- Witness for C7: the message `"my name is Sam"` sets the display name to
`Sam` and answers `"Hi Sam! …"` without calling the model gateway. -/
theorem name_extraction_shortcut_witness :
    ("my name is Sam" : String) ≠ "" ∧
    jsTrim "my name is Sam" ≠ "" ∧
    findNameMatch ("my name is Sam".data) = some ['S', 'a', 'm'] ∧
    (chatHandler (.ok "unused") "T0" [] [] ⟨"my name is Sam", "s1", none⟩).resp.response
      = some "Hi Sam! How can I assist you today?" ∧
    (∃ s', mapGet (chatHandler (.ok "unused") "T0" [] []
        ⟨"my name is Sam", "s1", none⟩).sessions "s1" = some s' ∧ s'.userName = "Sam") ∧
    (chatHandler (.ok "unused") "T0" [] [] ⟨"my name is Sam", "s1", none⟩).modelCalled
      = false := by
  have h := name_extraction_shortcut (.ok "unused") "T0" [] []
    ⟨"my name is Sam", "s1", none⟩ ['S', 'a', 'm'] (by decide) (by decide) (by decide)
  exact ⟨by decide, by decide, by decide, h.2.1, h.2.2.1, h.2.2.2.1⟩

/-! ## C6: model-gateway failure -/

/-- C6: when the model gateway fails (or returns a malformed result, which
the source converts into a thrown error), the chat handler answers a terminal
`500` with the generic error and a `details` field echoing the error text,
and the stored history for the session ends with the user turn only — no
assistant turn is appended (the log equals the prior log plus the capped user
append, where the prior log is the stored one for an existing session and the
freshly created empty one otherwise). -/
theorem gateway_failure_terminal_500 (now : String) (e : String)
    (sessions : List (String × Session)) (history : List (String × List Turn))
    (req : ChatRequest)
    (h1 : req.message ≠ "") (h2 : jsTrim req.message ≠ "")
    (hnm : findNameMatch req.message.data = none) :
    (chatHandler (.error e) now sessions history req).resp.status = 500 ∧
    (chatHandler (.error e) now sessions history req).resp.error
      = some "Failed to generate response" ∧
    (chatHandler (.error e) now sessions history req).resp.details = some e ∧
    (chatHandler (.error e) now sessions history req).modelCalled = true ∧
    ((mapGet sessions req.sessionId).isSome = true →
      mapGet (chatHandler (.error e) now sessions history req).history req.sessionId
        = some (pushUserTurn ((mapGet history req.sessionId).getD [])
            { type := "user", message := jsTrim req.message, timestamp := now })) ∧
    (mapGet sessions req.sessionId = none →
      mapGet (chatHandler (.error e) now sessions history req).history req.sessionId
        = some (pushUserTurn []
            { type := "user", message := jsTrim req.message, timestamp := now })) := by
  unfold chatHandler
  rw [if_neg (by push_neg; exact ⟨h1, h2⟩)]
  cases hg : mapGet sessions req.sessionId with
  | some s =>
      have hr : getOrCreateSession sessions history req.sessionId req.userName now
          = (s, sessions, history) := by
        unfold getOrCreateSession
        rw [hg]
      rw [hr, hnm]
      refine ⟨rfl, rfl, rfl, rfl, fun _ => ?_, fun hnone => by simp [hg] at hnone⟩
      exact mapGet_mapSet_self _ _ _
  | none =>
      have hr : getOrCreateSession sessions history req.sessionId req.userName now
          = (let s : Session :=
              { id := req.sessionId, userName := req.userName.getD "Friend",
                conversationCount := 0, mood := "neutral", interests := [],
                createdAt := now, lastActivity := now };
             (s, mapSet sessions req.sessionId s, mapSet history req.sessionId [])) := by
        unfold getOrCreateSession
        rw [hg]
      rw [hr, hnm]
      refine ⟨rfl, rfl, rfl, rfl, fun hsome => by simp [hg] at hsome, fun _ => ?_⟩
      refine Eq.trans (mapGet_mapSet_self _ _ _) ?_
      rw [mapGet_mapSet_self]
      rfl

/-- Witness for C6: with gateway error `"boom"` on message `"hello"` for a
fresh session, the response is a `500` carrying `details = "boom"` and the
stored log holds exactly the single user turn. -/
theorem gateway_failure_terminal_500_witness :
    ("hello" : String) ≠ "" ∧
    jsTrim "hello" ≠ "" ∧
    findNameMatch ("hello".data) = none ∧
    (chatHandler (.error "boom") "T0" [] [] ⟨"hello", "s1", none⟩).resp.status = 500 ∧
    (chatHandler (.error "boom") "T0" [] [] ⟨"hello", "s1", none⟩).resp.details
      = some "boom" ∧
    mapGet (chatHandler (.error "boom") "T0" [] [] ⟨"hello", "s1", none⟩).history "s1"
      = some [{ type := "user", message := "hello", timestamp := "T0" }] := by
  have h := gateway_failure_terminal_500 "T0" "boom" [] [] ⟨"hello", "s1", none⟩
    (by decide) (by decide) (by decide)
  refine ⟨by decide, by decide, by decide, h.1, h.2.2.1, ?_⟩
  have h6 := h.2.2.2.2.2 rfl
  rw [h6]
  decide

/-! ## C1: the FAQ short-circuit -/

/-- C1: a chat request whose message matches an FAQ entry is answered with a
terminal `200` composed of the canned answer, the booking nudge, and the
signature (plus `responseType`/`category` fields); the session and history
stores are returned untouched and the model gateway is never invoked — the
FAQ check short-circuits before session resolution. -/
theorem faq_short_circuit (table : List FAQEntry) (gw : Except String String)
    (now : String) (sessions : List (String × Session))
    (history : List (String × List Turn)) (req : ChatRequest) (entry : FAQEntry)
    (h1 : req.message ≠ "") (h2 : jsTrim req.message ≠ "")
    (hfaq : findFAQMatch table req.message = some entry) :
    (chatHandlerWithFAQ table gw now sessions history req).resp.status = 200 ∧
    (chatHandlerWithFAQ table gw now sessions history req).resp.response
      = some (entry.answer ++ "\n\n" ++ bookingNudge ++ "\n\n" ++ signatureLine) ∧
    (chatHandlerWithFAQ table gw now sessions history req).resp.responseType
      = some "faq" ∧
    (chatHandlerWithFAQ table gw now sessions history req).resp.category
      = some entry.category ∧
    (chatHandlerWithFAQ table gw now sessions history req).sessions = sessions ∧
    (chatHandlerWithFAQ table gw now sessions history req).history = history ∧
    (chatHandlerWithFAQ table gw now sessions history req).modelCalled = false := by
  unfold chatHandlerWithFAQ
  rw [if_neg (by push_neg; exact ⟨h1, h2⟩), hfaq]
  exact ⟨rfl, rfl, rfl, rfl, rfl, rfl, rfl⟩

/-- A one-entry FAQ table used to instantiate the FAQ short-circuit. -/
def sampleFAQTable : List FAQEntry :=
  [{ category := "pricing", keywords := ["price", "cost"],
     answer := "Coaching is $750 CAD per month." }]

/-- Witness for C1: with a pricing FAQ entry, the message
`"What is the PRICE?"` is answered from the table with the composed canned
response, both stores (holding a pre-existing session) are unchanged, and the
model gateway is not called. -/
theorem faq_short_circuit_witness :
    ("What is the PRICE?" : String) ≠ "" ∧
    findFAQMatch sampleFAQTable "What is the PRICE?"
      = some { category := "pricing", keywords := ["price", "cost"],
               answer := "Coaching is $750 CAD per month." } ∧
    (chatHandlerWithFAQ sampleFAQTable (.ok "unused") "T1" [("s1", sampleSession)]
        [("s1", [])] ⟨"What is the PRICE?", "s1", none⟩).resp.response
      = some ("Coaching is $750 CAD per month." ++ "\n\n" ++ bookingNudge
          ++ "\n\n" ++ signatureLine) ∧
    (chatHandlerWithFAQ sampleFAQTable (.ok "unused") "T1" [("s1", sampleSession)]
        [("s1", [])] ⟨"What is the PRICE?", "s1", none⟩).sessions
      = [("s1", sampleSession)] ∧
    (chatHandlerWithFAQ sampleFAQTable (.ok "unused") "T1" [("s1", sampleSession)]
        [("s1", [])] ⟨"What is the PRICE?", "s1", none⟩).history = [("s1", [])] ∧
    (chatHandlerWithFAQ sampleFAQTable (.ok "unused") "T1" [("s1", sampleSession)]
        [("s1", [])] ⟨"What is the PRICE?", "s1", none⟩).modelCalled = false := by
  have h := faq_short_circuit sampleFAQTable (.ok "unused") "T1" [("s1", sampleSession)]
    [("s1", [])] ⟨"What is the PRICE?", "s1", none⟩
    { category := "pricing", keywords := ["price", "cost"],
      answer := "Coaching is $750 CAD per month." }
    (by decide) (by decide) (by decide)
  exact ⟨by decide, by decide, h.2.1, h.2.2.2.2.1, h.2.2.2.2.2.1, h.2.2.2.2.2.2⟩

/-! ## C5: contact-form duplicate-submission guard -/

/-- C5: two contact submissions with the same email address within the
trailing duplicate window — the first succeeds (`200`, mails dispatched) and
the second is rejected with the `429` duplicate-submission response (no mail
sent); and the periodic purge keeps exactly the guard entries at most an hour
old. -/
theorem contact_duplicate_window (g : List (String × Nat)) (t1 t2 : Nat)
    (req : ContactRequest)
    (hname : req.name ≠ "") (hemail : req.email ≠ "") (hmsg : req.message ≠ "")
    (hfmt : emailRegexTest req.email = true)
    (hfresh : mapGet g req.email = none)
    (hwin : t2 - t1 < duplicateWindowMs) :
    (contactHandler g t1 req).status = 200 ∧
    (contactHandler g t1 req).mailSent = true ∧
    (contactHandler (contactHandler g t1 req).guard t2 req).status = 429 ∧
    (contactHandler (contactHandler g t1 req).guard t2 req).mailSent = false ∧
    (∀ (g' : List (String × Nat)) (t : Nat) (e : String) (ts : Nat),
      (e, ts) ∈ purgeGuard g' t ↔ (e, ts) ∈ g' ∧ t - ts ≤ purgeAgeMs) := by
  have ho1 : contactHandler g t1 req
      = { status := 200, mailSent := true, guard := mapSet g req.email t1 } := by
    unfold contactHandler
    rw [if_neg (by push_neg; exact ⟨hname, hemail, hmsg⟩), if_neg (by simp [hfmt]),
      hfresh]
  have hg1 : mapGet (mapSet g req.email t1) req.email = some t1 :=
    mapGet_mapSet_self _ _ _
  have ho2 : contactHandler (mapSet g req.email t1) t2 req
      = { status := 429,
          errorMsg := some "Duplicate submission detected. Please wait before submitting again.",
          guard := mapSet g req.email t1 } := by
    unfold contactHandler
    rw [if_neg (by push_neg; exact ⟨hname, hemail, hmsg⟩), if_neg (by simp [hfmt]),
      hg1]
    simp only [if_pos hwin]
  rw [ho1, ho2]
  refine ⟨rfl, rfl, rfl, rfl, ?_⟩
  intro g' t e ts
  simp [purgeGuard, List.mem_filter]

/-- Witness for C5: the same email submitted at `t = 0` and again at
`t = 1000` (inside the 5-minute window) — `200` then `429`. -/
theorem contact_duplicate_window_witness :
    emailRegexTest "bob@example.com" = true ∧
    (contactHandler [] 0 ⟨"Bob", "bob@example.com", "hi"⟩).status = 200 ∧
    (contactHandler (contactHandler [] 0 ⟨"Bob", "bob@example.com", "hi"⟩).guard 1000
        ⟨"Bob", "bob@example.com", "hi"⟩).status = 429 := by
  have h := contact_duplicate_window [] 0 1000 ⟨"Bob", "bob@example.com", "hi"⟩
    (by decide) (by decide) (by decide) (by decide) rfl (by decide)
  exact ⟨by decide, h.1, h.2.2.1⟩

/-! ## C8: booking response on mail-gateway failure -/

/-- Counterexample to C8: in the first `src/server.js` booking handler (lines
290–359) the single `sendMail` is covered only by the outer `catch`, so a
mail-gateway failure on a valid request (name and email present) yields a
`500` without the scheduling link — not a degraded success response. -/
theorem booking_mail_failure_counterexample :
    (bookMeetingAlan (.error "smtp down") "T0" "tok" []
        ⟨"Bob", "bob@example.com", "s1", none, "performance"⟩).status = 500 ∧
    (bookMeetingAlan (.error "smtp down") "T0" "tok" []
        ⟨"Bob", "bob@example.com", "s1", none, "performance"⟩).schedulingUrl
      = none := by
  decide

/-- C8 as amended: only in the booking-handler iterations that wrap the mail
dispatch in an inner `try`/`catch` (`src/unnamed/part_000` lines 390–412, and
likewise the second `server.js` iteration) does a Mail Gateway failure on a
valid request degrade to a `200` response still returning the generated
scheduling link (with an explanatory note); in the first `server.js`
iteration (lines 290–359) the mail send is covered only by the outer `catch`,
so the same failure yields a `500` without the link. -/
theorem booking_mail_failure_degrades (e now token : String)
    (sessions : List (String × Session)) (req : BookingRequest)
    (hname : req.name ≠ "") (hemail : req.email ≠ "") :
    (bookMeetingChris (.error e) now token sessions req).status = 200 ∧
    (bookMeetingChris (.error e) now token sessions req).schedulingUrl
      = some ("https://calendly.com/chris-lightworks/30min/" ++ token) ∧
    (bookMeetingChris (.error e) now token sessions req).note
      = some "Email notification failed, but your booking link is ready." ∧
    (bookMeetingAlan (.error e) now token sessions req).status = 500 ∧
    (bookMeetingAlan (.error e) now token sessions req).schedulingUrl = none := by
  unfold bookMeetingChris bookMeetingAlan
  rw [if_neg (by push_neg; exact ⟨hname, hemail⟩)]
  rw [if_neg (by push_neg; exact ⟨hname, hemail⟩)]
  exact ⟨rfl, rfl, rfl, rfl, rfl⟩

/-- Witness for C8 (amended): a valid request with a failing mail gateway —
the part_000 handler answers `200` with the link and the note, the first
server.js handler answers `500`. -/
theorem booking_mail_failure_degrades_witness :
    ("Bob" : String) ≠ "" ∧
    (bookMeetingChris (.error "smtp down") "T0" "tok" []
        ⟨"Bob", "bob@example.com", "s1", none, "spiritual"⟩).status = 200 ∧
    (bookMeetingChris (.error "smtp down") "T0" "tok" []
        ⟨"Bob", "bob@example.com", "s1", none, "spiritual"⟩).schedulingUrl
      = some "https://calendly.com/chris-lightworks/30min/tok" ∧
    (bookMeetingChris (.error "smtp down") "T0" "tok" []
        ⟨"Bob", "bob@example.com", "s1", none, "spiritual"⟩).note
      = some "Email notification failed, but your booking link is ready." := by
  have h := booking_mail_failure_degrades "smtp down" "T0" "tok" []
    ⟨"Bob", "bob@example.com", "s1", none, "spiritual"⟩ (by decide) (by decide)
  exact ⟨by decide, h.1, h.2.1, h.2.2.1⟩

end SpeskOn
